import Mathlib

/-!
# asistente_back: chat controller, router and server

Shallow embedding of `src/controllers/chatController.js`, `src/routes/chatRoutes.js`,
`src/utils/helpers.js` and the request pipeline of `src/server.js`.

Handlers are functions from an environment (process environment, provider, database faults,
clock), a request body and a store to an `Outcome`: the HTTP response, the store afterwards and
the trace of external effects (database operations and provider calls) in the order they happen.
-/

set_option autoImplicit false

namespace AsistenteBack

/-! ## JavaScript values and strings -/

/-- JSON scalar held by a field of `req.body`; `undefined` is an absent field. -/
inductive JsValue where
  | undefined
  | null
  | bool (b : Bool)
  | num (n : Int)
  | str (s : String)
  deriving DecidableEq, Repr

/-- JavaScript truthiness: `!v` is `false` exactly on the truthy values. -/
def JsValue.truthy : JsValue → Bool
  | .undefined => false
  | .null => false
  | .bool b => b
  | .num n => decide (n ≠ 0)
  | .str s => decide (s ≠ "")

/-- White space and line terminators removed by `String.prototype.trim`. -/
def isJsWhitespace (c : Char) : Bool :=
  let n := c.toNat
  (0x09 ≤ n && n ≤ 0x0D) || n == 0x20 || n == 0xA0 || n == 0x1680 ||
  (0x2000 ≤ n && n ≤ 0x200A) || n == 0x2028 || n == 0x2029 || n == 0x202F ||
  n == 0x205F || n == 0x3000 || n == 0xFEFF

/-- `s.trim()`. -/
def jsTrim (s : String) : String :=
  ⟨((s.data.dropWhile isJsWhitespace).reverse.dropWhile isJsWhitespace).reverse⟩

/-- `s.substring(2, 8)`. -/
def substring2to8 (s : String) : String :=
  ⟨(s.data.drop 2).take 6⟩

/-- One base-36 digit as printed by `Number.prototype.toString(36)`. -/
def digit36 (d : Nat) : Char :=
  if d < 10 then Char.ofNat (48 + d) else Char.ofNat (87 + d)

/-- Digits of `n` in base 36, most significant first; `fuel` bounds the number of digits. -/
def toBase36Core : Nat → Nat → List Char → List Char
  | 0, _, acc => acc
  | fuel + 1, n, acc =>
    let acc1 := digit36 (n % 36) :: acc
    if n / 36 = 0 then acc1 else toBase36Core fuel (n / 36) acc1

/-- `n.toString(36)` for a non-negative integer. -/
def toBase36 (n : Nat) : String :=
  ⟨toBase36Core (n + 1) n []⟩

/-- `generateUniqueId` of `utils/helpers.js`: `now` is `Date.now()` and `random36` is the text
of `Math.random().toString(36)`. -/
def generateUniqueId (now : Nat) (random36 : String) : String :=
  let timestamp := toBase36 now
  let randomStr := substring2to8 random36
  timestamp ++ "-" ++ randomStr

/-! ## Data model -/

/-- Role of a message of the log. -/
inductive Role where
  | user
  | assistant
  deriving DecidableEq, Repr

/-- Modelled from the spec: `models/Conversation.js` is not among the sources. A message has a
role and a content; the content is stored as the handler supplies it. -/
structure Message where
  role : Role
  content : JsValue
  deriving DecidableEq, Repr

/-- Modelled from the spec: `models/Conversation.js` is not among the sources. A conversation
document has the user id it was created with, the ordered message log, the time of the last
persist and the creation time that `loginUser` sorts by. -/
structure Conversation where
  userId : JsValue
  messages : List Message
  lastUpdated : Nat
  createdAt : Nat
  deriving DecidableEq, Repr

/-- Modelled from the spec: `models/User.js` is not among the sources. A user has a name and a
generated id. -/
structure User where
  name : String
  userId : String
  deriving DecidableEq, Repr

/-- The two collections of the database. -/
structure Store where
  users : List User
  conversations : List Conversation
  deriving DecidableEq, Repr

/-- In-memory document: `slot` is the position of the persisted document in the collection,
`none` for a document built with `new Conversation(...)` and not saved yet. -/
structure ConversationDoc where
  slot : Option Nat
  data : Conversation
  deriving DecidableEq, Repr

/-- A thrown JavaScript error. -/
structure JsError where
  message : String
  stack : String
  deriving DecidableEq, Repr

/-- Database operations used by the controller. -/
inductive DbOp where
  | userFindOne
  | userSave
  | conversationFindOne
  | conversationFind
  | conversationSave
  deriving DecidableEq, Repr

/-- Argument of `openai.chat.completions.create`. -/
structure CompletionRequest where
  model : String
  messages : List Message
  deriving DecidableEq, Repr

/-- Result of `openai.chat.completions.create`: `choices[i].message.content` for each choice. -/
structure Completion where
  choices : List String
  deriving DecidableEq, Repr

/-- An initialised OpenAI client: one network call per request. -/
abbrev Provider := CompletionRequest → Except JsError Completion

/-- Everything outside the handlers: process environment, the provider behind an API key, the
database operations that throw, the clock and the random source. -/
structure Env where
  NODE_ENV : Option String
  OPENAI_API_KEY : Option String
  network : String → Provider
  dbFault : DbOp → Option JsError
  now : Nat
  random36 : String

/-- External effects, recorded in the order they happen. -/
inductive Effect where
  | db (op : DbOp)
  | provider (req : CompletionRequest)
  deriving DecidableEq, Repr

/-- JSON bodies sent by the server. An `undefined` property is not serialised: it is `none`. -/
inductive Body where
  | error (error : String) (details : Option String) (stack : Option String)
  | registered (message : String) (userId : String) (name : String)
  | login (user : User) (conversations : List Conversation) (message : String)
  | chat (response : String) (conversation : List Message)
  | history (conversation : List Message)
  | banner (message : String) (status : String)
  | health (status : String) (timestamp : Nat)
  | cannot (method : String) (path : List String)
  deriving DecidableEq, Repr

/-- HTTP response. -/
structure Response where
  status : Nat
  body : Body
  deriving DecidableEq, Repr

/-- Result of running a handler. -/
structure Outcome where
  response : Response
  store : Store
  trace : List Effect
  deriving DecidableEq, Repr

/-- Fields of `req.body` read by the handlers. -/
structure ReqBody where
  name : JsValue
  userId : JsValue
  message : JsValue
  deriving DecidableEq, Repr

/-! ## Database operations -/

/-- First element satisfying `p`, with its position. -/
def findFirst {α : Type} (p : α → Bool) : List α → Option (Nat × α)
  | [] => none
  | a :: l => if p a then some (0, a) else (findFirst p l).map (fun r => (r.1 + 1, r.2))

/-- Modelled from the spec: `Conversation.findOne` filtered by `userId`, the conversation of
`userId` or nothing; throws when the database operation fails. -/
def Conversation.findOne (env : Env) (st : Store) (userId : JsValue) :
    Except JsError (Option ConversationDoc) :=
  match env.dbFault .conversationFindOne with
  | some e => .error e
  | none =>
    .ok ((findFirst (fun c => decide (c.userId = userId)) st.conversations).map
      (fun r => ⟨some r.1, r.2⟩))

/-- Modelled from the spec: `new Conversation` with a `userId` and a message list, an unsaved
document. -/
def Conversation.new (userId : JsValue) (messages : List Message) : ConversationDoc :=
  ⟨none, ⟨userId, messages, 0, 0⟩⟩

/-- `conversation.messages.push(m)`. -/
def ConversationDoc.push (d : ConversationDoc) (m : Message) : ConversationDoc :=
  { d with data := { d.data with messages := d.data.messages ++ [m] } }

/-- Modelled from the spec: `conversation.save()` overwrites the persisted document, or inserts
the document when it is new; throws, writing nothing, when the database operation fails. -/
def ConversationDoc.save (env : Env) (st : Store) (d : ConversationDoc) : Except JsError Store :=
  match env.dbFault .conversationSave with
  | some e => .error e
  | none =>
    match d.slot with
    | some i => .ok { st with conversations := st.conversations.set i d.data }
    | none =>
      .ok { st with conversations := st.conversations ++ [{ d.data with createdAt := env.now }] }

/-- Modelled from the spec: `Conversation.find` filtered by `userId`, sorted by `createdAt`
descending and limited to 20: the 20 most recent conversations of `userId`, newest first. -/
def Conversation.findRecent (env : Env) (st : Store) (userId : JsValue) :
    Except JsError (List Conversation) :=
  match env.dbFault .conversationFind with
  | some e => .error e
  | none =>
    .ok ((((st.conversations.filter (fun c => decide (c.userId = userId))).insertionSort
      (fun a b => b.createdAt ≤ a.createdAt))).take 20)

/-- Modelled from the spec: `User.findOne` filtered by `name`, exact match on the name. -/
def User.findOneByName (env : Env) (st : Store) (name : String) : Except JsError (Option User) :=
  match env.dbFault .userFindOne with
  | some e => .error e
  | none => .ok (st.users.find? (fun u => decide (u.name = name)))

/-- Modelled from the spec: `User.findOne` filtered by `name` and `userId`, exact match on the
pair. -/
def User.findOne (env : Env) (st : Store) (name userId : JsValue) :
    Except JsError (Option User) :=
  match env.dbFault .userFindOne with
  | some e => .error e
  | none =>
    .ok (st.users.find? (fun u => decide (JsValue.str u.name = name ∧ JsValue.str u.userId = userId)))

/-- Modelled from the spec: `user.save()` of a new user; throws, writing nothing, when the
database operation fails. -/
def User.save (env : Env) (st : Store) (u : User) : Except JsError Store :=
  match env.dbFault .userSave with
  | some e => .error e
  | none => .ok { st with users := st.users ++ [u] }

/-! ## chatController.js -/

/-- Module initialisation, lines 10-21: the client exists only when the key is non-empty. -/
def initOpenAI (apiKey : Option String) (network : String → Provider) : Option Provider :=
  match apiKey with
  | none => none
  | some k => if k = "" then none else some (network k)

/-- The module-level variable `openai`. -/
def openai (env : Env) : Option Provider :=
  initOpenAI env.OPENAI_API_KEY env.network

/-- The `TypeError` of reading property `prop` of `undefined`. -/
def typeErrorUndefined (prop : String) : JsError :=
  ⟨"Cannot read properties of undefined (reading \x27" ++ prop ++ "\x27)", "TypeError"⟩

/-- The projection of a stored message on its `role` and `content`, mapped over the log before
it is sent. -/
def roleContent (m : Message) : Message :=
  { role := m.role, content := m.content }

/-- The call `openai.chat.completions.create(req)`: reading `openai.chat` throws when the client
was never initialised, before any request is made. -/
def chatCompletionsCreate (env : Env) (req : CompletionRequest) :
    Except JsError Completion × List Effect :=
  match openai env with
  | none => (.error (typeErrorUndefined "chat"), [])
  | some client => (client req, [.provider req])

/-- The `catch` block of `generateChatResponse`. -/
def chatCatch (error : JsError) (st : Store) (trace : List Effect) : Outcome :=
  ⟨⟨500, .error "Error al procesar la solicitud" (some error.message) none⟩, st, trace⟩

/-- The handler `generateChatResponse`. -/
def generateChatResponse (env : Env) (body : ReqBody) (st : Store) : Outcome :=
  let message := body.message
  let userId := body.userId
  if !message.truthy || !userId.truthy then
    ⟨⟨400, .error "Mensaje y userId son requeridos" none none⟩, st, []⟩
  else
    match Conversation.findOne env st userId with
    | .error e => chatCatch e st [.db .conversationFindOne]
    | .ok found =>
      let conversation0 := match found with
        | some d => d
        | none => Conversation.new userId []
      let conversation1 := conversation0.push ⟨.user, message⟩
      let call := chatCompletionsCreate env
        ⟨"gpt-3.5-turbo", conversation1.data.messages.map roleContent⟩
      match call.1 with
      | .error e => chatCatch e st ([.db .conversationFindOne] ++ call.2)
      | .ok completion =>
        match completion.choices.head? with
        | none =>
          chatCatch (typeErrorUndefined "message") st ([.db .conversationFindOne] ++ call.2)
        | some assistantResponse =>
          let conversation2 := conversation1.push ⟨.assistant, .str assistantResponse⟩
          let conversation3 : ConversationDoc :=
            { conversation2 with data := { conversation2.data with lastUpdated := env.now } }
          match conversation3.save env st with
          | .error e =>
            chatCatch e st ([.db .conversationFindOne] ++ call.2 ++ [.db .conversationSave])
          | .ok st1 =>
            ⟨⟨200, .chat assistantResponse conversation3.data.messages⟩, st1,
              [.db .conversationFindOne] ++ call.2 ++ [.db .conversationSave]⟩

/-- The handler `getConversationHistory`; `userId` is `req.params.userId`. -/
def getConversationHistory (env : Env) (userId : String) (st : Store) : Outcome :=
  match Conversation.findOne env st (.str userId) with
  | .error _ =>
    ⟨⟨500, .error "Error obteniendo el historial" none none⟩, st, [.db .conversationFindOne]⟩
  | .ok none =>
    ⟨⟨404, .error "Conversación no encontrada" none none⟩, st, [.db .conversationFindOne]⟩
  | .ok (some conversation) =>
    ⟨⟨200, .history conversation.data.messages⟩, st, [.db .conversationFindOne]⟩

/-- The `catch` block of `registerUser`. -/
def registerCatch (env : Env) (error : JsError) (st : Store) (trace : List Effect) : Outcome :=
  ⟨⟨500, .error "Error al registrar usuario" (some error.message)
    (if env.NODE_ENV = some "development" then some error.stack else none)⟩, st, trace⟩

/-- The handler `registerUser`. -/
def registerUser (env : Env) (body : ReqBody) (st : Store) : Outcome :=
  match body.name with
  | .str name =>
    if name = "" ∨ (jsTrim name).length = 0 then
      ⟨⟨400, .error "El nombre es requerido y debe ser una cadena de texto válida" none none⟩,
        st, []⟩
    else
      match User.findOneByName env st (jsTrim name) with
      | .error e => registerCatch env e st [.db .userFindOne]
      | .ok (some _) =>
        ⟨⟨400, .error "Ya existe un usuario con este nombre" none none⟩, st, [.db .userFindOne]⟩
      | .ok none =>
        let userId := generateUniqueId env.now env.random36
        let user : User := ⟨jsTrim name, userId⟩
        match user.save env st with
        | .error e => registerCatch env e st [.db .userFindOne, .db .userSave]
        | .ok st1 =>
          ⟨⟨201, .registered "¡Registro exitoso! 🎉" userId (jsTrim name)⟩, st1,
            [.db .userFindOne, .db .userSave]⟩
  | _ =>
    ⟨⟨400, .error "El nombre es requerido y debe ser una cadena de texto válida" none none⟩,
      st, []⟩

/-- The handler `loginUser`. -/
def loginUser (env : Env) (body : ReqBody) (st : Store) : Outcome :=
  let name := body.name
  let userId := body.userId
  match User.findOne env st name userId with
  | .error _ =>
    ⟨⟨500, .error "Error al recuperar la conversación" none none⟩, st, [.db .userFindOne]⟩
  | .ok none => ⟨⟨404, .error "Usuario no encontrado" none none⟩, st, [.db .userFindOne]⟩
  | .ok (some user) =>
    match Conversation.findRecent env st userId with
    | .error _ =>
      ⟨⟨500, .error "Error al recuperar la conversación" none none⟩, st,
        [.db .userFindOne, .db .conversationFind]⟩
    | .ok conversations =>
      ⟨⟨200, .login user conversations "¡Conversación recuperada exitosamente!"⟩, st,
        [.db .userFindOne, .db .conversationFind]⟩

/-! ## routes/chatRoutes.js and server.js -/

/-- Request methods that reach the routes (`OPTIONS` is answered by the CORS middleware). -/
inductive Method where
  | GET
  | POST
  deriving DecidableEq, Repr

/-- The handlers that `chatRoutes.js` imports from the controller. -/
inductive Handler where
  | registerUser
  | loginUser
  | generateChatResponse
  deriving DecidableEq, Repr

/-- One `router.METHOD(path, handler)` registration; the path is its list of segments. -/
structure Route where
  method : Method
  path : List String
  handler : Handler
  deriving DecidableEq, Repr

/-- The router built by `chatRoutes.js`, in registration order. -/
def router : List Route :=
  [⟨.POST, ["register"], .registerUser⟩,
   ⟨.POST, ["login"], .loginUser⟩,
   ⟨.POST, [], .generateChatResponse⟩]

/-- Run a routed handler. -/
def Handler.run : Handler → Env → ReqBody → Store → Outcome
  | .registerUser => AsistenteBack.registerUser
  | .loginUser => AsistenteBack.loginUser
  | .generateChatResponse => AsistenteBack.generateChatResponse

/-- ASCII lower-casing: Express matches paths case-insensitively by default. -/
def lowerSegment (s : String) : String :=
  ⟨s.data.map Char.toLower⟩

/-- Path equality as Express decides it for a route without parameters. -/
def samePath (a b : List String) : Bool :=
  decide (a.map lowerSegment = b.map lowerSegment)

/-- What is left of the path below a mount point, when the path starts with it. -/
def stripMount : List String → List String → Option (List String)
  | [], path => some path
  | _ :: _, [] => none
  | m :: ms, p :: ps => if lowerSegment m = lowerSegment p then stripMount ms ps else none

/-- An incoming request: method, path segments, and the body as `express.json()` leaves it
(an error when the JSON is malformed). -/
structure Request where
  method : Method
  path : List String
  body : Except JsError ReqBody

/-- The error middleware of `server.js`. -/
def errorMiddleware (env : Env) (err : JsError) : Response :=
  ⟨500, .error "Error interno del servidor"
    (if env.NODE_ENV = some "development" then some err.message else none) none⟩

/-- Name of a method, as printed in the default not-found answer. -/
def Method.name : Method → String
  | .GET => "GET"
  | .POST => "POST"

/-- The application of `server.js`: JSON body parsing, the router mounted at `/api/chat`, the
banner and health routes, the error middleware, and the default 404 of Express when nothing
matches. -/
def app (env : Env) (req : Request) (st : Store) : Outcome :=
  match req.body with
  | .error err => ⟨errorMiddleware env err, st, []⟩
  | .ok body =>
    let routed : Option Route :=
      match stripMount ["api", "chat"] req.path with
      | some rest => router.find? (fun r => decide (r.method = req.method) && samePath r.path rest)
      | none => none
    match routed with
    | some r => r.handler.run env body st
    | none =>
      if req.method = .GET ∧ req.path = [] then
        ⟨⟨200, .banner "API de ChatGPT funcionando correctamente"
          "OpenAI configurado con clave fija en el controlador"⟩, st, []⟩
      else if req.method = .GET ∧ samePath ["api", "health"] req.path = true then
        ⟨⟨200, .health "ok" env.now⟩, st, []⟩
      else
        ⟨⟨404, .cannot req.method.name req.path⟩, st, []⟩

/-! ## Notions used by the statements -/

/-- The conversations stored for `userId`. -/
def conversationsOf (st : Store) (userId : JsValue) : List Conversation :=
  st.conversations.filter (fun c => decide (c.userId = userId))

/-- The stored message log of `userId`: empty when no conversation exists. -/
def storedLog (st : Store) (userId : JsValue) : List Message :=
  match findFirst (fun c => decide (c.userId = userId)) st.conversations with
  | some r => r.2.messages
  | none => []

/-- Lines 116-121 of the controller as one step: the reply text the gateway yields for a
message list, or the error thrown. -/
def gatewayReply (env : Env) (messages : List Message) : Except JsError String :=
  match (chatCompletionsCreate env ⟨"gpt-3.5-turbo", messages⟩).1 with
  | .error e => .error e
  | .ok completion =>
    match completion.choices.head? with
    | none => .error (typeErrorUndefined "message")
    | some r => .ok r

/-- The requests sent to the external provider, in order. -/
def providerCalls : List Effect → List CompletionRequest
  | [] => []
  | .provider req :: t => req :: providerCalls t
  | .db _ :: t => providerCalls t

/-- A body with an `error` field. -/
def Body.hasError : Body → Bool
  | .error _ _ _ => true
  | _ => false

/-- The `details` field of a body, when present. -/
def Body.details : Body → Option String
  | .error _ d _ => d
  | _ => none

/-- The `stack` field of a body, when present. -/
def Body.stack : Body → Option String
  | .error _ _ s => s
  | _ => none

/-- The reading of "missing or empty" for a body field: absent, `null` or the empty string. -/
def JsValue.missingOrEmpty : JsValue → Bool
  | .undefined => true
  | .null => true
  | .str s => decide (s = "")
  | _ => false

/-- Stores reachable from an empty user directory by calls of the four handlers. -/
inductive Reachable : Store → Prop where
  | empty (cs : List Conversation) : Reachable ⟨[], cs⟩
  | register (env : Env) (body : ReqBody) (st : Store) :
      Reachable st → Reachable (registerUser env body st).store
  | login (env : Env) (body : ReqBody) (st : Store) :
      Reachable st → Reachable (loginUser env body st).store
  | chat (env : Env) (body : ReqBody) (st : Store) :
      Reachable st → Reachable (generateChatResponse env body st).store
  | history (env : Env) (userId : String) (st : Store) :
      Reachable st → Reachable (getConversationHistory env userId st).store

/-! ## Environments and stores of the examples -/

/-- The environment of the examples: a provider that answers `hi`, no database fault. -/
def exampleEnv : Env :=
  ⟨none, some "sk-test", fun _ _ => .ok ⟨["hi"]⟩, fun _ => none, 5, "0.abcdefghij"⟩

/-- A store in which `u1` already has a conversation of two messages. -/
def exampleStore : Store :=
  ⟨[⟨"ana", "5-abcdef"⟩],
    [⟨.str "u1", [⟨.user, .str "hola"⟩, ⟨.assistant, .str "buenas"⟩], 3, 3⟩]⟩

/-- An environment started without `OPENAI_API_KEY`. -/
def noKeyEnv : Env :=
  ⟨some "production", none, fun _ _ => .ok ⟨["hi"]⟩, fun _ => none, 5, "0.abcdefghij"⟩

/-- A production-style environment whose provider rejects the API key. -/
def productionEnv : Env :=
  ⟨some "production", some "sk-test",
    fun _ _ => .error ⟨"401 Incorrect API key provided", "Error: 401 at OpenAI.makeRequest"⟩,
    fun _ => none, 5, "0.abcdefghij"⟩

/-- A production-style environment whose database is unreachable: every operation throws. -/
def faultyEnv : Env :=
  ⟨some "production", some "sk-test", fun _ _ => .ok ⟨["hi"]⟩,
    fun _ => some ⟨"connection lost", "MongoNetworkError: connection lost at Connection.onClose"⟩,
    5, "0.abcdefghij"⟩

/-! ## Lemmas on the collections -/

theorem map_roleContent (l : List Message) : l.map roleContent = l := by
  induction l with
  | nil => rfl
  | cons a t ih => simp [List.map, ih, roleContent]

theorem findFirst_none_filter {α : Type} (p : α → Bool) (l : List α)
    (h : findFirst p l = none) : l.filter p = [] := by
  induction l with
  | nil => rfl
  | cons a t ih =>
    by_cases hp : p a = true
    · simp [findFirst, hp] at h
    · simp only [findFirst, hp] at h
      have ht : findFirst p t = none := by
        cases hf : findFirst p t with
        | none => rfl
        | some r => simp [hf] at h
      simp [List.filter, hp, ih ht]

theorem findFirst_append_none {α : Type} (p : α → Bool) (l : List α) (a : α)
    (h : findFirst p l = none) (hp : p a = true) :
    findFirst p (l ++ [a]) = some (l.length, a) := by
  induction l with
  | nil => simp [findFirst, hp]
  | cons b t ih =>
    by_cases hb : p b = true
    · simp [findFirst, hb] at h
    · simp only [findFirst, hb] at h
      have ht : findFirst p t = none := by
        cases hf : findFirst p t with
        | none => rfl
        | some r => simp [hf] at h
      simp [findFirst, hb, ih ht]

theorem findFirst_some_holds {α : Type} (p : α → Bool) (l : List α) (i : Nat) (a : α)
    (h : findFirst p l = some (i, a)) : p a = true := by
  induction l generalizing i with
  | nil => simp [findFirst] at h
  | cons b t ih =>
    by_cases hb : p b = true
    · simp only [findFirst, hb, if_true, Option.some.injEq, Prod.mk.injEq] at h
      rw [← h.2]; exact hb
    · simp only [findFirst, hb] at h
      cases hf : findFirst p t with
      | none => simp [hf] at h
      | some r =>
        obtain ⟨j, c⟩ := r
        simp [hf] at h
        obtain ⟨_, hd⟩ := h
        subst hd
        exact ih j hf

theorem findFirst_set {α : Type} (p : α → Bool) (l : List α) (i : Nat) (a b : α)
    (h : findFirst p l = some (i, a)) (hp : p b = true) :
    findFirst p (l.set i b) = some (i, b) := by
  induction l generalizing i with
  | nil => simp [findFirst] at h
  | cons c t ih =>
    by_cases hc : p c = true
    · simp only [findFirst, hc, if_true, Option.some.injEq, Prod.mk.injEq] at h
      rw [← h.1]; simp [findFirst, hp]
    · simp only [findFirst, hc] at h
      cases hf : findFirst p t with
      | none => simp [hf] at h
      | some r =>
        obtain ⟨j, d⟩ := r
        simp [hf] at h
        obtain ⟨hj, hd⟩ := h
        subst hj; subst hd
        simp [findFirst, hc, ih j hf]

theorem filter_set_first {α : Type} (p : α → Bool) (l : List α) (i : Nat) (a b : α)
    (h : findFirst p l = some (i, a)) (hp : p b = true) :
    (l.set i b).filter p = b :: (l.filter p).tail ∧ l.filter p = a :: (l.filter p).tail := by
  induction l generalizing i with
  | nil => simp [findFirst] at h
  | cons c t ih =>
    by_cases hc : p c = true
    · simp only [findFirst, hc, if_true, Option.some.injEq, Prod.mk.injEq] at h
      obtain ⟨hi, hca⟩ := h
      subst hi; subst hca
      simp [List.filter, hp, hc]
    · simp only [findFirst, hc] at h
      cases hf : findFirst p t with
      | none => simp [hf] at h
      | some r =>
        obtain ⟨j, d⟩ := r
        simp [hf] at h
        obtain ⟨hj, hd⟩ := h
        subst hj; subst hd
        have := ih j hf
        simp [List.filter, hc, this.1]
        exact this.2

/-! ## Lemmas on the exchange -/

theorem gatewayReply_ok (env : Env) (msgs : List Message) (r : String)
    (h : gatewayReply env msgs = .ok r) :
    ∃ client completion, openai env = some client ∧
      client ⟨"gpt-3.5-turbo", msgs⟩ = .ok completion ∧ completion.choices.head? = some r := by
  unfold gatewayReply chatCompletionsCreate at h
  cases ho : openai env with
  | none => simp [ho] at h
  | some client =>
    simp only [ho] at h
    cases hc : client ⟨"gpt-3.5-turbo", msgs⟩ with
    | error e => simp [hc] at h
    | ok completion =>
      simp only [hc] at h
      cases hh : completion.choices.head? with
      | none => simp [hh] at h
      | some r2 =>
        simp only [hh, Except.ok.injEq] at h
        exact ⟨client, completion, rfl, hc, by rw [hh, h]⟩

theorem truthy_str (s : String) (h : s ≠ "") : (JsValue.str s).truthy = true := by
  simp [JsValue.truthy, h]

theorem exchange_fresh (env : Env) (st : Store) (name : JsValue) (u m r : String)
    (hm : m ≠ "") (hu : u ≠ "")
    (hfind : env.dbFault .conversationFindOne = none)
    (hsave : env.dbFault .conversationSave = none)
    (hnone : findFirst (fun c => decide (c.userId = JsValue.str u)) st.conversations = none)
    (hreply : gatewayReply env [⟨.user, .str m⟩] = .ok r) :
    generateChatResponse env ⟨name, .str u, .str m⟩ st =
      ⟨⟨200, .chat r [⟨.user, .str m⟩, ⟨.assistant, .str r⟩]⟩,
       ⟨st.users, st.conversations ++
          [⟨.str u, [⟨.user, .str m⟩, ⟨.assistant, .str r⟩], env.now, env.now⟩]⟩,
       [.db .conversationFindOne, .provider ⟨"gpt-3.5-turbo", [⟨.user, .str m⟩]⟩,
        .db .conversationSave]⟩ := by
  obtain ⟨client, completion, ho, hc, hh⟩ := gatewayReply_ok env _ r hreply
  simp [generateChatResponse, truthy_str, hm, hu, Conversation.findOne, hfind, hnone,
    Conversation.new, ConversationDoc.push, chatCompletionsCreate, ho, roleContent, hc, hh,
    ConversationDoc.save, hsave]

theorem exchange_existing (env : Env) (st : Store) (name : JsValue) (u m r : String)
    (i : Nat) (c : Conversation)
    (hm : m ≠ "") (hu : u ≠ "")
    (hfind : env.dbFault .conversationFindOne = none)
    (hsave : env.dbFault .conversationSave = none)
    (hsome : findFirst (fun c => decide (c.userId = JsValue.str u)) st.conversations = some (i, c))
    (hreply : gatewayReply env (c.messages ++ [⟨.user, .str m⟩]) = .ok r) :
    generateChatResponse env ⟨name, .str u, .str m⟩ st =
      ⟨⟨200, .chat r (c.messages ++ [⟨.user, .str m⟩, ⟨.assistant, .str r⟩])⟩,
       ⟨st.users, st.conversations.set i
          ⟨c.userId, c.messages ++ [⟨.user, .str m⟩, ⟨.assistant, .str r⟩], env.now,
            c.createdAt⟩⟩,
       [.db .conversationFindOne,
        .provider ⟨"gpt-3.5-turbo", c.messages ++ [⟨.user, .str m⟩]⟩,
        .db .conversationSave]⟩ := by
  obtain ⟨client, completion, ho, hc, hh⟩ := gatewayReply_ok env _ r hreply
  have hmap : List.map roleContent c.messages = c.messages := map_roleContent _
  simp [generateChatResponse, truthy_str, hm, hu, Conversation.findOne, hfind, hsome,
    ConversationDoc.push, chatCompletionsCreate, ho, hmap, roleContent, hc, hh,
    ConversationDoc.save, hsave]

theorem exchange_step (env : Env) (st : Store) (name : JsValue) (u m r : String)
    (hm : m ≠ "") (hu : u ≠ "")
    (hfind : env.dbFault .conversationFindOne = none)
    (hsave : env.dbFault .conversationSave = none)
    (hreply : gatewayReply env (storedLog st (.str u) ++ [⟨.user, .str m⟩]) = .ok r) :
    (generateChatResponse env ⟨name, .str u, .str m⟩ st).response =
      ⟨200, .chat r (storedLog st (.str u) ++ [⟨.user, .str m⟩, ⟨.assistant, .str r⟩])⟩ ∧
    storedLog (generateChatResponse env ⟨name, .str u, .str m⟩ st).store (.str u) =
      storedLog st (.str u) ++ [⟨.user, .str m⟩, ⟨.assistant, .str r⟩] ∧
    (conversationsOf (generateChatResponse env ⟨name, .str u, .str m⟩ st).store (.str u)).map
        (fun c => c.messages) =
      (storedLog st (.str u) ++ [⟨.user, .str m⟩, ⟨.assistant, .str r⟩]) ::
        ((conversationsOf st (.str u)).map (fun c => c.messages)).tail ∧
    (generateChatResponse env ⟨name, .str u, .str m⟩ st).store.users = st.users := by
  cases hf : findFirst (fun c => decide (c.userId = JsValue.str u)) st.conversations with
  | none =>
    have hL : storedLog st (.str u) = [] := by simp [storedLog, hf]
    rw [hL] at hreply ⊢
    rw [exchange_fresh env st name u m r hm hu hfind hsave hf (by simpa using hreply)]
    have hempty := findFirst_none_filter _ _ hf
    refine ⟨by simp, ?_, ?_, rfl⟩
    · simp [storedLog, findFirst_append_none _ _ _ hf]
    · simp [conversationsOf, List.filter_append, hempty, List.filter]
  | some p =>
    obtain ⟨i, c⟩ := p
    have hL : storedLog st (.str u) = c.messages := by simp [storedLog, hf]
    rw [hL] at hreply ⊢
    rw [exchange_existing env st name u m r i c hm hu hfind hsave hf hreply]
    have hc : c.userId = JsValue.str u := by
      have := findFirst_some_holds _ _ _ _ hf
      simpa using this
    refine ⟨rfl, ?_, ?_, rfl⟩
    · simp [storedLog, findFirst_set _ _ i c _ hf, hc]
    · have h2 := filter_set_first (fun c => decide (c.userId = JsValue.str u)) st.conversations i c
        ⟨c.userId, c.messages ++ [⟨.user, .str m⟩, ⟨.assistant, .str r⟩], env.now, c.createdAt⟩
        hf (by simp [hc])
      simp only [conversationsOf]
      rw [h2.1]
      simp [List.map_tail]

theorem findFirst_of_filter_nil {α : Type} (p : α → Bool) (l : List α)
    (h : l.filter p = []) : findFirst p l = none := by
  induction l with
  | nil => rfl
  | cons a t ih =>
    by_cases hp : p a = true
    · simp [List.filter, hp] at h
    · simp only [List.filter, hp] at h
      simp [findFirst, hp, ih h]

theorem storedLog_of_no_conversation (st : Store) (userId : JsValue)
    (h : conversationsOf st userId = []) : storedLog st userId = [] := by
  simp [storedLog, findFirst_of_filter_nil _ _ h]

theorem tail_nil_of_length_le_one {α : Type} (l : List α) (h : l.length ≤ 1) : l.tail = [] := by
  cases l with
  | nil => rfl
  | cons a t =>
    cases t with
    | nil => rfl
    | cons b t2 => simp at h

/-! ## Claims -/

/-- C1: a successful exchange appends exactly two entries. For a non-empty `userId` and message
`m`, a store holding at most one conversation for the user with log `L` (empty when there is
none), database operations that succeed and a gateway reply `r`, `generateChatResponse` answers
200 with `response = r` and `conversation = L ++ [user m, assistant r]`, and the store then holds a
single conversation for the user with that log. A fresh user ends with one conversation of two
messages, and a second exchange ends with `L ++ [user m, assistant r, user m2, assistant r2]`. -/
theorem exchange_appends_two_entries (env : Env) (st : Store) (name : JsValue) (u m r : String)
    (hm : m ≠ "") (hu : u ≠ "")
    (hfind : env.dbFault .conversationFindOne = none)
    (hsave : env.dbFault .conversationSave = none)
    (hone : (conversationsOf st (.str u)).length ≤ 1)
    (hreply : gatewayReply env (storedLog st (.str u) ++ [⟨.user, .str m⟩]) = .ok r) :
    ((generateChatResponse env ⟨name, .str u, .str m⟩ st).response =
        ⟨200, .chat r (storedLog st (.str u) ++ [⟨.user, .str m⟩, ⟨.assistant, .str r⟩])⟩ ∧
      (conversationsOf (generateChatResponse env ⟨name, .str u, .str m⟩ st).store (.str u)).map
          (fun c => c.messages) =
        [storedLog st (.str u) ++ [⟨.user, .str m⟩, ⟨.assistant, .str r⟩]] ∧
      storedLog (generateChatResponse env ⟨name, .str u, .str m⟩ st).store (.str u) =
        storedLog st (.str u) ++ [⟨.user, .str m⟩, ⟨.assistant, .str r⟩]) ∧
    (conversationsOf st (.str u) = [] →
      (conversationsOf (generateChatResponse env ⟨name, .str u, .str m⟩ st).store (.str u)).map
          (fun c => c.messages) = [[⟨.user, .str m⟩, ⟨.assistant, .str r⟩]]) ∧
    (∀ (env2 : Env) (m2 r2 : String), m2 ≠ "" →
      env2.dbFault .conversationFindOne = none → env2.dbFault .conversationSave = none →
      gatewayReply env2 (storedLog st (.str u) ++
        [⟨.user, .str m⟩, ⟨.assistant, .str r⟩, ⟨.user, .str m2⟩]) = .ok r2 →
      (generateChatResponse env2 ⟨name, .str u, .str m2⟩
          (generateChatResponse env ⟨name, .str u, .str m⟩ st).store).response =
        ⟨200, .chat r2 (storedLog st (.str u) ++ [⟨.user, .str m⟩, ⟨.assistant, .str r⟩,
          ⟨.user, .str m2⟩, ⟨.assistant, .str r2⟩])⟩ ∧
      (conversationsOf (generateChatResponse env2 ⟨name, .str u, .str m2⟩
          (generateChatResponse env ⟨name, .str u, .str m⟩ st).store).store (.str u)).map
          (fun c => c.messages) =
        [storedLog st (.str u) ++ [⟨.user, .str m⟩, ⟨.assistant, .str r⟩,
          ⟨.user, .str m2⟩, ⟨.assistant, .str r2⟩]]) := by
  obtain ⟨h1, h2, h3, _⟩ := exchange_step env st name u m r hm hu hfind hsave hreply
  have htail : ((conversationsOf st (.str u)).map (fun c => c.messages)).tail = [] :=
    tail_nil_of_length_le_one _ (by simpa using hone)
  rw [htail] at h3
  refine ⟨⟨h1, h3, h2⟩, ?_, ?_⟩
  · intro hfresh
    rw [h3, storedLog_of_no_conversation st _ hfresh]
    rfl
  · intro env2 m2 r2 hm2 hfind2 hsave2 hreply2
    have hreply3 : gatewayReply env2
        (storedLog (generateChatResponse env ⟨name, .str u, .str m⟩ st).store (.str u) ++
          [⟨.user, .str m2⟩]) = .ok r2 := by
      rw [h2]; simpa using hreply2
    obtain ⟨k1, _, k3, _⟩ := exchange_step env2 _ name u m2 r2 hm2 hu hfind2 hsave2 hreply3
    rw [h2] at k1
    rw [h2, h3] at k3
    refine ⟨by simpa using k1, by simpa using k3⟩

/-- Two exchanges of a fresh user `u1`: the second store holds the four messages in order. -/
theorem exchange_appends_two_entries_witness :
    (generateChatResponse exampleEnv ⟨.undefined, .str "u1", .str "hello"⟩ ⟨[], []⟩).response =
      ⟨200, .chat "hi" [⟨.user, .str "hello"⟩, ⟨.assistant, .str "hi"⟩]⟩ ∧
    (conversationsOf (generateChatResponse exampleEnv ⟨.undefined, .str "u1", .str "again"⟩
        (generateChatResponse exampleEnv ⟨.undefined, .str "u1", .str "hello"⟩ ⟨[], []⟩).store).store
        (.str "u1")).map (fun c => c.messages) =
      [[⟨.user, .str "hello"⟩, ⟨.assistant, .str "hi"⟩,
        ⟨.user, .str "again"⟩, ⟨.assistant, .str "hi"⟩]] := by
  have h := exchange_appends_two_entries exampleEnv ⟨[], []⟩ .undefined "u1" "hello" "hi"
    (by decide) (by decide) rfl rfl (by decide) rfl
  exact ⟨h.1.1, (h.2.2 exampleEnv "again" "hi" (by decide) rfl rfl rfl).2⟩

theorem chat_found_messages (env : Env) (st : Store) (u : String)
    (hfind : env.dbFault .conversationFindOne = none) :
    ∃ found, Conversation.findOne env st (.str u) = .ok found ∧
      (match found with
        | some d => d
        | none => Conversation.new (.str u) []).data.messages = storedLog st (.str u) := by
  cases hf : findFirst (fun c => decide (c.userId = JsValue.str u)) st.conversations with
  | none => exact ⟨none, by simp [Conversation.findOne, hfind, hf], by simp [storedLog, hf, Conversation.new]⟩
  | some p => exact ⟨some ⟨some p.1, p.2⟩, by simp [Conversation.findOne, hfind, hf], by simp [storedLog, hf]⟩

/-- C2: a failing gateway leaves storage untouched. When the gateway call fails for the log of
the user followed by the new user message, `generateChatResponse` answers 500 with a body that has
an `error` field, and the store is the one before the call. -/
theorem gateway_failure_keeps_store (env : Env) (st : Store) (name : JsValue) (u m : String)
    (e : JsError) (hm : m ≠ "") (hu : u ≠ "")
    (hfail : gatewayReply env (storedLog st (.str u) ++ [⟨.user, .str m⟩]) = .error e) :
    (generateChatResponse env ⟨name, .str u, .str m⟩ st).response.status = 500 ∧
    (generateChatResponse env ⟨name, .str u, .str m⟩ st).response.body.hasError = true ∧
    (generateChatResponse env ⟨name, .str u, .str m⟩ st).store = st ∧
    (env.dbFault .conversationFindOne = none →
      (generateChatResponse env ⟨name, .str u, .str m⟩ st).response =
        ⟨500, .error "Error al procesar la solicitud" (some e.message) none⟩) := by
  cases hfault : env.dbFault .conversationFindOne with
  | some e0 =>
    simp [generateChatResponse, truthy_str, hm, hu, Conversation.findOne, hfault, chatCatch,
      Body.hasError]
  | none =>
    obtain ⟨found, hfound, hmsgs⟩ := chat_found_messages env st u hfault
    have tm : (JsValue.str m).truthy = true := truthy_str m hm
    have tu : (JsValue.str u).truthy = true := truthy_str u hu
    unfold gatewayReply at hfail
    simp only [generateChatResponse, tm, tu, hfound, ConversationDoc.push,
      map_roleContent, hmsgs]
    cases hc : (chatCompletionsCreate env
        ⟨"gpt-3.5-turbo", storedLog st (.str u) ++ [⟨.user, .str m⟩]⟩).1 with
    | error e1 =>
      simp only [hc, Except.error.injEq] at hfail
      subst hfail
      simp [chatCatch, Body.hasError]
    | ok completion =>
      simp only [hc] at hfail
      cases hh : completion.choices.head? with
      | none =>
        simp only [hh, Except.error.injEq] at hfail
        subst hfail
        simp [hh, chatCatch, Body.hasError]
      | some r => simp [hh] at hfail

theorem chat_provider_calls (env : Env) (st : Store) (name : JsValue) (u m : String)
    (hm : m ≠ "") (hu : u ≠ "") :
    providerCalls (generateChatResponse env ⟨name, .str u, .str m⟩ st).trace =
      if env.dbFault .conversationFindOne = none ∧ (openai env).isSome = true then
        [⟨"gpt-3.5-turbo", storedLog st (.str u) ++ [⟨.user, .str m⟩]⟩]
      else [] := by
  have tm : (JsValue.str m).truthy = true := truthy_str m hm
  have tu : (JsValue.str u).truthy = true := truthy_str u hu
  cases hfault : env.dbFault .conversationFindOne with
  | some e0 =>
    simp [generateChatResponse, tm, tu, Conversation.findOne, hfault, chatCatch, providerCalls]
  | none =>
    obtain ⟨found, hfound, hmsgs⟩ := chat_found_messages env st u hfault
    simp only [generateChatResponse, tm, tu, hfound, ConversationDoc.push,
      map_roleContent, hmsgs, chatCompletionsCreate]
    cases ho : openai env with
    | none => simp [chatCatch, providerCalls]
    | some client =>
      cases hc : client ⟨"gpt-3.5-turbo", storedLog st (.str u) ++ [⟨.user, .str m⟩]⟩ with
      | error e1 => simp [hc, chatCatch, providerCalls]
      | ok completion =>
        cases hh : completion.choices.head? with
        | none => simp [hc, hh, chatCatch, providerCalls]
        | some r =>
          cases hs : env.dbFault .conversationSave with
          | some e2 => simp [hc, hh, ConversationDoc.save, hs, chatCatch, providerCalls]
          | none =>
            cases found with
            | none => simp [hc, hh, ConversationDoc.save, hs, Conversation.new, providerCalls]
            | some d =>
              cases hd : d.slot with
              | none => simp [hc, hh, ConversationDoc.save, hs, hd, providerCalls]
              | some i => simp [hc, hh, ConversationDoc.save, hs, hd, providerCalls]

/-- C3: the gateway is given the entire history. In an exchange that passes validation every
request sent to the provider carries the stored log of the user followed by the new user message,
each entry reduced to role and content, in order: `|L| + 1` messages. When the lookup succeeds and
the client is initialised, exactly one such request is sent. -/
theorem gateway_receives_full_history (env : Env) (st : Store) (name : JsValue) (u m : String)
    (hm : m ≠ "") (hu : u ≠ "") :
    (∀ req ∈ providerCalls (generateChatResponse env ⟨name, .str u, .str m⟩ st).trace,
      req.model = "gpt-3.5-turbo" ∧
      req.messages =
        (storedLog st (.str u) ++ [(⟨.user, .str m⟩ : Message)]).map roleContent ∧
      req.messages = storedLog st (.str u) ++ [⟨.user, .str m⟩] ∧
      req.messages.length = (storedLog st (.str u)).length + 1) ∧
    (env.dbFault .conversationFindOne = none → (openai env).isSome = true →
      providerCalls (generateChatResponse env ⟨name, .str u, .str m⟩ st).trace =
        [⟨"gpt-3.5-turbo", storedLog st (.str u) ++ [⟨.user, .str m⟩]⟩]) := by
  rw [chat_provider_calls env st name u m hm hu]
  constructor
  · intro req hreq
    split at hreq
    · simp only [List.mem_singleton] at hreq
      subst hreq
      simp [map_roleContent, roleContent]
    · simp at hreq
  · intro h1 h2
    simp [h1, h2]

theorem chat_status_of_valid (env : Env) (body : ReqBody) (st : Store)
    (hm : body.message.truthy = true) (hu : body.userId.truthy = true) :
    (generateChatResponse env body st).response.status = 500 ∨
    (generateChatResponse env body st).response.status = 200 := by
  simp only [generateChatResponse, hm, hu]
  simp only [Bool.not_true, Bool.or_self, Bool.false_eq_true, if_false]
  split
  · simp [chatCatch]
  · split
    · simp [chatCatch]
    · split
      · simp [chatCatch]
      · split
        · simp [chatCatch]
        · simp

theorem chat_invalid (env : Env) (body : ReqBody) (st : Store)
    (h : body.message.truthy = false ∨ body.userId.truthy = false) :
    generateChatResponse env body st =
      ⟨⟨400, .error "Mensaje y userId son requeridos" none none⟩, st, []⟩ := by
  have hc : (!body.message.truthy || !body.userId.truthy) = true := by
    rcases h with h | h <;> simp [h]
  simp only [generateChatResponse, hc, if_true]

/-- C4, as stated, fails: a message that is the number `0` is present and not empty, and the
request is answered 400. -/
theorem validation_counterexample :
    ¬ ((generateChatResponse exampleEnv ⟨.undefined, .str "u1", .num 0⟩
          ⟨[], []⟩).response.status = 400 ↔
        ((JsValue.num 0).missingOrEmpty = true ∨ (JsValue.str "u1").missingOrEmpty = true)) := by
  decide

/-- C4 (amended): `generateChatResponse` answers 400 if and only if `message` or `userId` is
falsy (absent, `null`, the empty string, the number 0 or `false`); a string field is falsy exactly
when it is empty. When it answers 400 the body has an `error` field, the store is unchanged and
no database operation or provider call happens; when both fields are truthy the answer is 500 or
200, never 400. -/
theorem validation_400_iff_falsy (env : Env) (body : ReqBody) (st : Store) :
    ((generateChatResponse env body st).response.status = 400 ↔
      (body.message.truthy = false ∨ body.userId.truthy = false)) ∧
    ((generateChatResponse env body st).response.status = 400 →
      generateChatResponse env body st =
        ⟨⟨400, .error "Mensaje y userId son requeridos" none none⟩, st, []⟩) ∧
    ((body.message.truthy = true ∧ body.userId.truthy = true) →
      (generateChatResponse env body st).response.status = 500 ∨
      (generateChatResponse env body st).response.status = 200) ∧
    (∀ v : JsValue, v.truthy = false ↔
      (v.missingOrEmpty = true ∨ v = .num 0 ∨ v = .bool false)) ∧
    (∀ s : String, (JsValue.str s).truthy = false ↔ s = "") := by
  have key : (generateChatResponse env body st).response.status = 400 ↔
      (body.message.truthy = false ∨ body.userId.truthy = false) := by
    constructor
    · intro h
      by_contra hne
      simp only [not_or, Bool.not_eq_false] at hne
      rcases chat_status_of_valid env body st hne.1 hne.2 with h5 | h2
      · rw [h5] at h; exact absurd h (by decide)
      · rw [h2] at h; exact absurd h (by decide)
    · intro h
      rw [chat_invalid env body st h]
  refine ⟨key, fun h => chat_invalid env body st (key.1 h),
    fun h => chat_status_of_valid env body st h.1 h.2, ?_, ?_⟩
  · intro v
    cases v with
    | undefined => simp [JsValue.truthy, JsValue.missingOrEmpty]
    | null => simp [JsValue.truthy, JsValue.missingOrEmpty]
    | bool b => cases b <;> simp [JsValue.truthy, JsValue.missingOrEmpty]
    | num n => simp [JsValue.truthy, JsValue.missingOrEmpty]
    | str s => simp [JsValue.truthy, JsValue.missingOrEmpty]
  · intro s
    simp [JsValue.truthy]

theorem openai_none_of_no_key (env : Env)
    (hkey : env.OPENAI_API_KEY = none ∨ env.OPENAI_API_KEY = some "") : openai env = none := by
  rcases hkey with h | h <;> simp [openai, initOpenAI, h]

/-- C5: without a provider credential at startup (absent or empty `OPENAI_API_KEY`) the client
is left uninitialised, and every exchange that passes validation is answered 500 with an `error`
field, with no request sent to the provider and the store unchanged. -/
theorem missing_credential_fails_exchange (env : Env) (body : ReqBody) (st : Store)
    (hkey : env.OPENAI_API_KEY = none ∨ env.OPENAI_API_KEY = some "")
    (hm : body.message.truthy = true) (hu : body.userId.truthy = true) :
    openai env = none ∧
    (generateChatResponse env body st).response.status = 500 ∧
    (generateChatResponse env body st).response.body.hasError = true ∧
    providerCalls (generateChatResponse env body st).trace = [] ∧
    (generateChatResponse env body st).store = st ∧
    (env.dbFault .conversationFindOne = none →
      (generateChatResponse env body st).response =
        ⟨500, .error "Error al procesar la solicitud"
          (some (typeErrorUndefined "chat").message) none⟩) := by
  have ho := openai_none_of_no_key env hkey
  refine ⟨ho, ?_⟩
  simp only [generateChatResponse, hm, hu, Bool.not_true, Bool.or_self, Bool.false_eq_true,
    if_false, chatCompletionsCreate, ho]
  cases hf : Conversation.findOne env st body.userId with
  | error e =>
    simp only [chatCatch, Body.hasError, providerCalls, true_and]
    intro hnone
    simp [Conversation.findOne, hnone] at hf
  | ok found => simp [chatCatch, Body.hasError, providerCalls]

theorem history_store (env : Env) (u : String) (st : Store) :
    (getConversationHistory env u st).store = st := by
  unfold getConversationHistory
  split <;> rfl

theorem history_response (env : Env) (u : String) (st : Store)
    (hfind : env.dbFault .conversationFindOne = none) :
    (getConversationHistory env u st).response =
      if conversationsOf st (.str u) = [] then
        ⟨404, .error "Conversación no encontrada" none none⟩
      else ⟨200, .history (storedLog st (.str u))⟩ := by
  cases hf : findFirst (fun c => decide (c.userId = JsValue.str u)) st.conversations with
  | none =>
    have hempty : conversationsOf st (.str u) = [] := findFirst_none_filter _ _ hf
    simp [getConversationHistory, Conversation.findOne, hfind, hf, hempty]
  | some p =>
    obtain ⟨i, c⟩ := p
    have hne : conversationsOf st (.str u) ≠ [] := by
      intro h
      rw [findFirst_of_filter_nil _ _ h] at hf
      exact absurd hf (by simp)
    simp [getConversationHistory, Conversation.findOne, hfind, hf, hne, storedLog]

/-- C6: history retrieval. When the lookup succeeds, `getConversationHistory` answers 404 when
no conversation exists for `userId` and otherwise 200 with the message log of the conversation in
stored order; the store is unchanged. After one successful exchange of `m` with reply `r` on a
fresh user it returns `[user m, assistant r]`. -/
theorem history_retrieval (env : Env) (u : String) (st : Store)
    (hfind : env.dbFault .conversationFindOne = none) :
    (conversationsOf st (.str u) = [] →
      (getConversationHistory env u st).response =
        ⟨404, .error "Conversación no encontrada" none none⟩) ∧
    (conversationsOf st (.str u) ≠ [] →
      (getConversationHistory env u st).response = ⟨200, .history (storedLog st (.str u))⟩) ∧
    (getConversationHistory env u st).store = st ∧
    (∀ (env0 : Env) (name : JsValue) (m r : String), m ≠ "" → u ≠ "" →
      env0.dbFault .conversationFindOne = none → env0.dbFault .conversationSave = none →
      conversationsOf st (.str u) = [] →
      gatewayReply env0 [⟨.user, .str m⟩] = .ok r →
      (getConversationHistory env u
          (generateChatResponse env0 ⟨name, .str u, .str m⟩ st).store).response =
        ⟨200, .history [⟨.user, .str m⟩, ⟨.assistant, .str r⟩]⟩) := by
  refine ⟨fun h => ?_, fun h => ?_, history_store env u st, ?_⟩
  · rw [history_response env u st hfind, if_pos h]
  · rw [history_response env u st hfind, if_neg h]
  · intro env0 name m r hm hu hfind0 hsave0 hfresh hreply
    have hL := storedLog_of_no_conversation st _ hfresh
    obtain ⟨_, h2, h3, _⟩ := exchange_step env0 st name u m r hm hu hfind0 hsave0
      (by rw [hL]; simpa using hreply)
    rw [history_response env u _ hfind, h2, hL]
    have hne : conversationsOf (generateChatResponse env0 ⟨name, .str u, .str m⟩ st).store
        (.str u) ≠ [] := by
      intro h
      rw [h] at h3
      simp at h3
    rw [if_neg hne]
    rfl

/-! ## Lemmas on registration and login -/

theorem string_length_eq_zero (s : String) : s.length = 0 ↔ s = "" := by
  cases s with
  | mk data =>
    constructor
    · intro h
      have hd : data = [] := List.length_eq_zero.mp h
      rw [hd]
    · intro h
      rw [h]
      rfl

/-- The outcome of `registerUser` on a string name, by cases on validation and on the database. -/
theorem register_str (env : Env) (name : String) (bu bm : JsValue) (st : Store) :
    registerUser env ⟨.str name, bu, bm⟩ st =
      if jsTrim name = "" then
        ⟨⟨400, .error "El nombre es requerido y debe ser una cadena de texto válida" none none⟩,
          st, []⟩
      else match env.dbFault .userFindOne with
        | some e => registerCatch env e st [.db .userFindOne]
        | none =>
          if ∃ x ∈ st.users, x.name = jsTrim name then
            ⟨⟨400, .error "Ya existe un usuario con este nombre" none none⟩, st,
              [.db .userFindOne]⟩
          else match env.dbFault .userSave with
            | some e => registerCatch env e st [.db .userFindOne, .db .userSave]
            | none =>
              ⟨⟨201, .registered "¡Registro exitoso! 🎉"
                  (generateUniqueId env.now env.random36) (jsTrim name)⟩,
                ⟨st.users ++ [⟨jsTrim name, generateUniqueId env.now env.random36⟩],
                  st.conversations⟩,
                [.db .userFindOne, .db .userSave]⟩ := by
  have hempty : name = "" → jsTrim name = "" := by
    intro h; rw [h]; rfl
  by_cases ht : jsTrim name = ""
  · simp [registerUser, ht, string_length_eq_zero]
  · have hn : name ≠ "" := fun h => ht (hempty h)
    simp only [registerUser, string_length_eq_zero, hn, ht, or_self, if_false]
    cases hfault : env.dbFault .userFindOne with
    | some e => simp [User.findOneByName, hfault]
    | none =>
      cases hfound : st.users.find? (fun u => decide (u.name = jsTrim name)) with
      | some x =>
        have hx := List.find?_some hfound
        have hmem := List.mem_of_find?_eq_some hfound
        have hex : ∃ x ∈ st.users, x.name = jsTrim name := ⟨x, hmem, by simpa using hx⟩
        simp [User.findOneByName, hfault, hfound, hex]
      | none =>
        have hno : ¬ ∃ x ∈ st.users, x.name = jsTrim name := by
          rintro ⟨x, hx, hxn⟩
          have := List.find?_eq_none.mp hfound x hx
          simp [hxn] at this
        cases hsave : env.dbFault .userSave with
        | some e => simp [User.findOneByName, hfault, hfound, hno, User.save, hsave]
        | none => simp [User.findOneByName, hfault, hfound, hno, User.save, hsave]

theorem register_non_str (env : Env) (body : ReqBody) (st : Store)
    (h : ∀ s, body.name ≠ .str s) :
    registerUser env body st =
      ⟨⟨400, .error "El nombre es requerido y debe ser una cadena de texto válida" none none⟩,
        st, []⟩ := by
  unfold registerUser
  split
  · rename_i name hname
    exact absurd hname (h name)
  · rfl

theorem register_users (env : Env) (body : ReqBody) (st : Store) :
    (registerUser env body st).store.conversations = st.conversations ∧
    ((registerUser env body st).store.users = st.users ∨
      ∃ tn id, (∀ x ∈ st.users, x.name ≠ tn) ∧
        (registerUser env body st).store.users = st.users ++ [⟨tn, id⟩]) := by
  obtain ⟨bn, bu, bm⟩ := body
  cases bn with
  | str name =>
    rw [register_str]
    by_cases ht : jsTrim name = ""
    · simp [ht]
    · simp only [ht, if_false]
      cases hfault : env.dbFault .userFindOne with
      | some e => simp [registerCatch]
      | none =>
        by_cases hex : ∃ x ∈ st.users, x.name = jsTrim name
        · simp [hex]
        · simp only [hex, if_false]
          cases hsave : env.dbFault .userSave with
          | some e => simp [registerCatch]
          | none =>
            refine ⟨rfl, Or.inr ⟨jsTrim name, generateUniqueId env.now env.random36, ?_, rfl⟩⟩
            intro x hx hxn
            exact hex ⟨x, hx, hxn⟩
  | undefined => rw [register_non_str env _ st (by intro s; simp)]; simp
  | null => rw [register_non_str env _ st (by intro s; simp)]; simp
  | bool b => rw [register_non_str env _ st (by intro s; simp)]; simp
  | num n => rw [register_non_str env _ st (by intro s; simp)]; simp

theorem login_store (env : Env) (body : ReqBody) (st : Store) :
    (loginUser env body st).store = st := by
  unfold loginUser
  simp only
  split
  · rfl
  · rfl
  · split <;> rfl

theorem save_users (env : Env) (st st1 : Store) (d : ConversationDoc)
    (h : d.save env st = .ok st1) : st1.users = st.users := by
  unfold ConversationDoc.save at h
  split at h
  · simp at h
  · split at h
    · simp only [Except.ok.injEq] at h
      rw [← h]
    · simp only [Except.ok.injEq] at h
      rw [← h]

theorem chat_users (env : Env) (body : ReqBody) (st : Store) :
    (generateChatResponse env body st).store.users = st.users := by
  unfold generateChatResponse
  simp only
  split
  · rfl
  · split
    · rfl
    · split
      · rfl
      · split
        · rfl
        · split
          · rfl
          · rename_i hs
            exact save_users env st _ _ hs

theorem reachable_names_nodup (st : Store) (h : Reachable st) :
    (st.users.map (fun x => x.name)).Nodup := by
  induction h with
  | empty cs => simp
  | register env body st _ ih =>
    rcases (register_users env body st).2 with hsame | ⟨tn, id, hnew, happ⟩
    · rw [hsame]; exact ih
    · rw [happ, List.map_append, List.nodup_append]
      refine ⟨ih, by simp, ?_⟩
      intro a ha hb
      simp only [List.map_cons, List.map_nil, List.mem_singleton] at hb
      obtain ⟨x, hx, hxa⟩ := List.mem_map.mp ha
      exact hnew x hx (by rw [hxa, hb])
  | login env body st _ ih => rw [login_store]; exact ih
  | chat env body st _ ih => rw [chat_users]; exact ih
  | history env userId st _ ih => rw [history_store]; exact ih

theorem register_201_inv (env : Env) (name : String) (bu bm : JsValue) (st : Store)
    (h : (registerUser env ⟨.str name, bu, bm⟩ st).response.status = 201) :
    jsTrim name ≠ "" ∧ (∀ x ∈ st.users, x.name ≠ jsTrim name) ∧
    registerUser env ⟨.str name, bu, bm⟩ st =
      ⟨⟨201, .registered "¡Registro exitoso! 🎉"
          (generateUniqueId env.now env.random36) (jsTrim name)⟩,
        ⟨st.users ++ [⟨jsTrim name, generateUniqueId env.now env.random36⟩], st.conversations⟩,
        [.db .userFindOne, .db .userSave]⟩ := by
  rw [register_str] at h ⊢
  by_cases ht : jsTrim name = ""
  · simp [ht] at h
  · simp only [ht, if_false] at h ⊢
    cases hfault : env.dbFault .userFindOne with
    | some e => simp [hfault, registerCatch] at h
    | none =>
      simp only [hfault] at h ⊢
      by_cases hex : ∃ x ∈ st.users, x.name = jsTrim name
      · simp [hex] at h
      · simp only [hex, if_false] at h ⊢
        cases hsave : env.dbFault .userSave with
        | some e => simp [hsave, registerCatch] at h
        | none =>
          refine ⟨fun h0 => ht h0, fun x hx hxn => hex ⟨x, hx, hxn⟩, rfl⟩

/-- C8: unique names in the user directory. When the lookup succeeds, `registerUser` called
with a valid name whose trimmed form is the name of an existing user answers 400 (duplicate) and
leaves the store as it was; in every store reachable from an empty directory no two users have the
same name; and registering the same trimmed name a second time fails. -/
theorem duplicate_name_rejected (env : Env) (st : Store) (name : String) (bu bm : JsValue)
    (hvalid : jsTrim name ≠ "") (hfind : env.dbFault .userFindOne = none) :
    ((∃ x ∈ st.users, x.name = jsTrim name) →
      registerUser env ⟨.str name, bu, bm⟩ st =
        ⟨⟨400, .error "Ya existe un usuario con este nombre" none none⟩, st,
          [.db .userFindOne]⟩) ∧
    (∀ st2 : Store, Reachable st2 → (st2.users.map (fun x => x.name)).Nodup) ∧
    (∀ (env0 : Env) (name0 : String) (bu0 bm0 : JsValue),
      (registerUser env0 ⟨.str name0, bu0, bm0⟩ st).response.status = 201 →
      jsTrim name0 = jsTrim name →
      registerUser env ⟨.str name, bu, bm⟩ (registerUser env0 ⟨.str name0, bu0, bm0⟩ st).store =
        ⟨⟨400, .error "Ya existe un usuario con este nombre" none none⟩,
          (registerUser env0 ⟨.str name0, bu0, bm0⟩ st).store, [.db .userFindOne]⟩) := by
  have dup : ∀ st1 : Store, (∃ x ∈ st1.users, x.name = jsTrim name) →
      registerUser env ⟨.str name, bu, bm⟩ st1 =
        ⟨⟨400, .error "Ya existe un usuario con este nombre" none none⟩, st1,
          [.db .userFindOne]⟩ := by
    intro st1 hex
    rw [register_str]
    simp [hvalid, hfind, hex]
  refine ⟨dup st, reachable_names_nodup, ?_⟩
  intro env0 name0 bu0 bm0 h201 hsame
  obtain ⟨_, _, hout⟩ := register_201_inv env0 name0 bu0 bm0 st h201
  apply dup
  rw [hout]
  exact ⟨⟨jsTrim name0, generateUniqueId env0.now env0.random36⟩, by simp, hsame⟩

/-- Registering `ana` twice: the second call is rejected as a duplicate. -/
theorem duplicate_name_rejected_witness :
    jsTrim " ana" ≠ "" ∧ exampleEnv.dbFault .userFindOne = none ∧
    registerUser exampleEnv ⟨.str " ana", .undefined, .undefined⟩
        (registerUser exampleEnv ⟨.str "ana  ", .undefined, .undefined⟩ ⟨[], []⟩).store =
      ⟨⟨400, .error "Ya existe un usuario con este nombre" none none⟩,
        (registerUser exampleEnv ⟨.str "ana  ", .undefined, .undefined⟩ ⟨[], []⟩).store,
        [.db .userFindOne]⟩ :=
  ⟨by decide, rfl,
    (duplicate_name_rejected exampleEnv ⟨[], []⟩ " ana" .undefined .undefined (by decide) rfl).2.2
      exampleEnv "ana  " .undefined .undefined (by decide) (by decide)⟩

theorem login_after_register (env2 : Env) (users : List User) (cs : List Conversation)
    (tn u : String) (bm : JsValue)
    (hf1 : env2.dbFault .userFindOne = none) (hf2 : env2.dbFault .conversationFind = none) :
    (loginUser env2 ⟨.str tn, .str u, bm⟩ ⟨users ++ [⟨tn, u⟩], cs⟩).response =
      ⟨200, .login ⟨tn, u⟩
        (((cs.filter (fun c => decide (c.userId = JsValue.str u))).insertionSort
          (fun a b => b.createdAt ≤ a.createdAt)).take 20)
        "¡Conversación recuperada exitosamente!"⟩ := by
  cases hfound : (users ++ [(⟨tn, u⟩ : User)]).find?
      (fun x => decide (JsValue.str x.name = JsValue.str tn ∧
        JsValue.str x.userId = JsValue.str u)) with
  | none =>
    have := List.find?_eq_none.mp hfound ⟨tn, u⟩ (by simp)
    simp at this
  | some x =>
    have hx := List.find?_some hfound
    simp only [JsValue.str.injEq, decide_eq_true_eq] at hx
    have hxe : x = ⟨tn, u⟩ := by
      cases x with
      | mk n i =>
        simp only at hx
        rw [hx.1, hx.2]
    subst hxe
    simp only [loginUser, User.findOne, hf1, hfound, Conversation.findRecent, hf2]

/-- C7, as stated, fails: registering the name ` bob ` succeeds and stores `bob`, and logging in
with the same input ` bob ` and the returned id is answered 404. -/
theorem register_login_counterexample :
    jsTrim " bob " ≠ "" ∧
    (registerUser exampleEnv ⟨.str " bob ", .undefined, .undefined⟩ ⟨[], []⟩).response =
      ⟨201, .registered "¡Registro exitoso! 🎉" "5-abcdef" "bob"⟩ ∧
    (loginUser exampleEnv ⟨.str " bob ", .str "5-abcdef", .undefined⟩
      (registerUser exampleEnv ⟨.str " bob ", .undefined, .undefined⟩ ⟨[], []⟩).store).response =
      ⟨404, .error "Usuario no encontrado" none none⟩ := by
  decide

/-- C7 (amended): register then login with the registered name. If `registerUser` answers 201
for a name input, its body carries the generated `userId` and the trimmed name; `loginUser` with
that trimmed name and that `userId` answers 200 with the stored user when the database operations
succeed, and with an empty conversation list when no conversation exists for the `userId`. With the raw name
input the same holds when the input has no surrounding white space. -/
theorem register_then_login (env env2 : Env) (st : Store) (name : String) (bu bm bm2 : JsValue)
    (h201 : (registerUser env ⟨.str name, bu, bm⟩ st).response.status = 201)
    (hf1 : env2.dbFault .userFindOne = none) (hf2 : env2.dbFault .conversationFind = none) :
    (registerUser env ⟨.str name, bu, bm⟩ st).response.body =
      .registered "¡Registro exitoso! 🎉" (generateUniqueId env.now env.random36) (jsTrim name) ∧
    (loginUser env2 ⟨.str (jsTrim name), .str (generateUniqueId env.now env.random36), bm2⟩
      (registerUser env ⟨.str name, bu, bm⟩ st).store).response.status = 200 ∧
    (conversationsOf st (.str (generateUniqueId env.now env.random36)) = [] →
      (loginUser env2 ⟨.str (jsTrim name), .str (generateUniqueId env.now env.random36), bm2⟩
        (registerUser env ⟨.str name, bu, bm⟩ st).store).response =
        ⟨200, .login ⟨jsTrim name, generateUniqueId env.now env.random36⟩ []
          "¡Conversación recuperada exitosamente!"⟩) ∧
    (jsTrim name = name →
      conversationsOf st (.str (generateUniqueId env.now env.random36)) = [] →
      (loginUser env2 ⟨.str name, .str (generateUniqueId env.now env.random36), bm2⟩
        (registerUser env ⟨.str name, bu, bm⟩ st).store).response =
        ⟨200, .login ⟨name, generateUniqueId env.now env.random36⟩ []
          "¡Conversación recuperada exitosamente!"⟩) := by
  obtain ⟨_, _, hout⟩ := register_201_inv env name bu bm st h201
  have hlogin := login_after_register env2 st.users st.conversations (jsTrim name)
    (generateUniqueId env.now env.random36) bm2 hf1 hf2
  rw [hout]
  refine ⟨rfl, by rw [hlogin], ?_, ?_⟩
  · intro hnone
    rw [hlogin]
    simp only [conversationsOf] at hnone
    rw [hnone]
    rfl
  · intro htrim hnone
    simp only [conversationsOf] at hnone
    rw [htrim] at hlogin
    rw [htrim, hlogin, hnone]
    rfl

/-- Registering ` bob ` and logging in as `bob`. -/
theorem register_then_login_witness :
    (registerUser exampleEnv ⟨.str " bob ", .undefined, .undefined⟩ ⟨[], []⟩).response.status
      = 201 ∧
    (loginUser exampleEnv ⟨.str "bob", .str "5-abcdef", .undefined⟩
      (registerUser exampleEnv ⟨.str " bob ", .undefined, .undefined⟩ ⟨[], []⟩).store).response =
      ⟨200, .login ⟨"bob", "5-abcdef"⟩ [] "¡Conversación recuperada exitosamente!"⟩ :=
  ⟨by decide,
    (register_then_login exampleEnv exampleEnv ⟨[], []⟩ " bob " .undefined .undefined .undefined
      (by decide) rfl rfl).2.2.1 (by decide)⟩

/-! ## Lemmas on error responses -/

theorem register_500 (env : Env) (body : ReqBody) (st : Store)
    (h : (registerUser env body st).response.status = 500) :
    ∃ e : JsError, (registerUser env body st).response =
      ⟨500, .error "Error al registrar usuario" (some e.message)
        (if env.NODE_ENV = some "development" then some e.stack else none)⟩ := by
  obtain ⟨bn, bu, bm⟩ := body
  cases bn with
  | str name =>
    rw [register_str] at h ⊢
    by_cases ht : jsTrim name = ""
    · simp [ht] at h
    · simp only [ht, if_false] at h ⊢
      cases hfault : env.dbFault .userFindOne with
      | some e => exact ⟨e, rfl⟩
      | none =>
        simp only [hfault] at h ⊢
        by_cases hex : ∃ x ∈ st.users, x.name = jsTrim name
        · simp [hex] at h
        · simp only [hex, if_false] at h ⊢
          cases hsave : env.dbFault .userSave with
          | some e => exact ⟨e, rfl⟩
          | none => simp [hsave] at h
  | undefined => rw [register_non_str env _ st (by intro s; simp)] at h; simp at h
  | null => rw [register_non_str env _ st (by intro s; simp)] at h; simp at h
  | bool b => rw [register_non_str env _ st (by intro s; simp)] at h; simp at h
  | num n => rw [register_non_str env _ st (by intro s; simp)] at h; simp at h

theorem login_500 (env : Env) (body : ReqBody) (st : Store)
    (h : (loginUser env body st).response.status = 500) :
    (loginUser env body st).response =
      ⟨500, .error "Error al recuperar la conversación" none none⟩ := by
  unfold loginUser at h ⊢
  simp only at h ⊢
  split
  · rfl
  · rename_i heq
    simp [heq] at h
  · rename_i heq
    simp only [heq] at h
    split
    · rfl
    · rename_i heq2
      simp [heq2] at h

theorem chat_shape (env : Env) (body : ReqBody) (st : Store) :
    (generateChatResponse env body st).response =
        ⟨400, .error "Mensaje y userId son requeridos" none none⟩ ∨
    (∃ e : JsError, (generateChatResponse env body st).response =
        ⟨500, .error "Error al procesar la solicitud" (some e.message) none⟩) ∨
    (∃ r l, (generateChatResponse env body st).response = ⟨200, .chat r l⟩) := by
  unfold generateChatResponse
  simp only
  split
  · exact Or.inl rfl
  · split
    · rename_i e _
      exact Or.inr (Or.inl ⟨e, rfl⟩)
    · split
      · rename_i e _
        exact Or.inr (Or.inl ⟨e, rfl⟩)
      · split
        · exact Or.inr (Or.inl ⟨typeErrorUndefined "message", rfl⟩)
        · split
          · rename_i e _
            exact Or.inr (Or.inl ⟨e, rfl⟩)
          · exact Or.inr (Or.inr ⟨_, _, rfl⟩)

theorem chat_500 (env : Env) (body : ReqBody) (st : Store)
    (h : (generateChatResponse env body st).response.status = 500) :
    ∃ e : JsError, (generateChatResponse env body st).response =
      ⟨500, .error "Error al procesar la solicitud" (some e.message) none⟩ := by
  rcases chat_shape env body st with h4 | h5 | ⟨r, l, h2⟩
  · rw [h4] at h; simp at h
  · exact h5
  · rw [h2] at h; simp at h

theorem history_500 (env : Env) (userId : String) (st : Store)
    (h : (getConversationHistory env userId st).response.status = 500) :
    (getConversationHistory env userId st).response =
      ⟨500, .error "Error obteniendo el historial" none none⟩ := by
  unfold getConversationHistory at h ⊢
  split
  · rfl
  · rename_i heq
    simp [heq] at h
  · rename_i heq
    simp [heq] at h

/-- C9, as stated, fails: outside development, a provider error caught by
`generateChatResponse` is answered 500 with the error message in the `details` field. -/
theorem error_detail_counterexample :
    productionEnv.NODE_ENV ≠ some "development" ∧
    (generateChatResponse productionEnv ⟨.undefined, .str "u1", .str "hello"⟩
        ⟨[], []⟩).response =
      ⟨500, .error "Error al procesar la solicitud" (some "401 Incorrect API key provided")
        none⟩ := by
  decide

theorem chat_found_general (env : Env) (st : Store) (userId : JsValue)
    (hfind : env.dbFault .conversationFindOne = none) :
    ∃ found, Conversation.findOne env st userId = .ok found ∧
      (match found with
        | some d => d
        | none => Conversation.new userId []).data.messages = storedLog st userId := by
  cases hf : findFirst (fun c => decide (c.userId = userId)) st.conversations with
  | none =>
    exact ⟨none, by simp [Conversation.findOne, hfind, hf],
      by simp [storedLog, hf, Conversation.new]⟩
  | some p =>
    exact ⟨some ⟨some p.1, p.2⟩, by simp [Conversation.findOne, hfind, hf],
      by simp [storedLog, hf]⟩

/-- An exchange answered 200 threw nowhere: lookup, gateway and save all succeeded. -/
theorem chat_200_inv (env : Env) (body : ReqBody) (st : Store)
    (h : (generateChatResponse env body st).response.status = 200) :
    env.dbFault .conversationFindOne = none ∧
    (∃ r, gatewayReply env (storedLog st body.userId ++ [⟨.user, body.message⟩]) = .ok r) ∧
    env.dbFault .conversationSave = none := by
  by_cases hv : body.message.truthy = false ∨ body.userId.truthy = false
  · rw [chat_invalid env body st hv] at h
    simp at h
  · simp only [not_or, Bool.not_eq_false] at hv
    obtain ⟨tm, tu⟩ := hv
    cases hfault : env.dbFault .conversationFindOne with
    | some e0 =>
      simp [generateChatResponse, tm, tu, Conversation.findOne, hfault, chatCatch] at h
    | none =>
      obtain ⟨found, hfound, hmsgs⟩ := chat_found_general env st body.userId hfault
      unfold gatewayReply
      simp only [generateChatResponse, tm, tu, hfound, ConversationDoc.push,
        map_roleContent, hmsgs] at h
      cases hc : (chatCompletionsCreate env
          ⟨"gpt-3.5-turbo", storedLog st body.userId ++ [⟨.user, body.message⟩]⟩).1 with
      | error e1 => simp [hc, chatCatch] at h
      | ok completion =>
        cases hh : completion.choices.head? with
        | none => simp [hc, hh, chatCatch] at h
        | some r =>
          cases hs : env.dbFault .conversationSave with
          | some e2 => simp [hc, hh, ConversationDoc.save, hs, chatCatch] at h
          | none => exact ⟨rfl, ⟨r, by simp only [hc, hh]⟩, rfl⟩

/-- Every throwing path of an exchange that passed validation ends in the `catch` block. -/
theorem chat_error_paths (env : Env) (body : ReqBody) (st : Store)
    (hm : body.message.truthy = true) (hu : body.userId.truthy = true)
    (hthrow : env.dbFault .conversationFindOne ≠ none ∨
      (∃ e, gatewayReply env (storedLog st body.userId ++ [⟨.user, body.message⟩]) = .error e) ∨
      env.dbFault .conversationSave ≠ none) :
    ∃ d, (generateChatResponse env body st).response =
      ⟨500, .error "Error al procesar la solicitud" d none⟩ := by
  rcases chat_shape env body st with h4 | ⟨e, h5⟩ | ⟨r, l, h2⟩
  · rcases chat_status_of_valid env body st hm hu with h | h <;> rw [h4] at h <;> simp at h
  · exact ⟨_, h5⟩
  · have h200 : (generateChatResponse env body st).response.status = 200 := by rw [h2]
    obtain ⟨k1, ⟨r2, k2⟩, k3⟩ := chat_200_inv env body st h200
    rcases hthrow with h | ⟨e, h⟩ | h
    · exact absurd k1 h
    · rw [k2] at h; simp at h
    · exact absurd k3 h

theorem chat_provider_error (env : Env) (body : ReqBody) (st : Store) (client : Provider)
    (e : JsError)
    (hm : body.message.truthy = true) (hu : body.userId.truthy = true)
    (hfind : env.dbFault .conversationFindOne = none)
    (ho : openai env = some client)
    (hc : client ⟨"gpt-3.5-turbo", storedLog st body.userId ++ [⟨.user, body.message⟩]⟩ =
      .error e) :
    (generateChatResponse env body st).response =
      ⟨500, .error "Error al procesar la solicitud" (some e.message) none⟩ := by
  obtain ⟨found, hfound, hmsgs⟩ := chat_found_general env st body.userId hfind
  simp only [generateChatResponse, hm, hu, hfound, ConversationDoc.push, map_roleContent, hmsgs,
    chatCompletionsCreate, ho, hc, chatCatch]
  simp

theorem login_error_paths (env : Env) (body : ReqBody) (st : Store) :
    (∀ e, env.dbFault .userFindOne = some e →
      (loginUser env body st).response =
        ⟨500, .error "Error al recuperar la conversación" none none⟩) ∧
    (∀ e user, User.findOne env st body.name body.userId = .ok (some user) →
      env.dbFault .conversationFind = some e →
      (loginUser env body st).response =
        ⟨500, .error "Error al recuperar la conversación" none none⟩) := by
  constructor
  · intro e he
    simp [loginUser, User.findOne, he]
  · intro e user hfound he
    simp [loginUser, hfound, Conversation.findRecent, he]

theorem history_error_path (env : Env) (userId : String) (st : Store) (e : JsError)
    (he : env.dbFault .conversationFindOne = some e) :
    (getConversationHistory env userId st).response =
      ⟨500, .error "Error obteniendo el historial" none none⟩ := by
  simp [getConversationHistory, Conversation.findOne, he]

theorem register_error_paths (env : Env) (s : String) (bu bm : JsValue) (st : Store)
    (hvalid : jsTrim s ≠ "") :
    (∀ e, env.dbFault .userFindOne = some e →
      ∃ d, (registerUser env ⟨.str s, bu, bm⟩ st).response =
        ⟨500, .error "Error al registrar usuario" d
          (if env.NODE_ENV = some "development" then some e.stack else none)⟩) ∧
    (∀ e, env.dbFault .userFindOne = none → (∀ x ∈ st.users, x.name ≠ jsTrim s) →
      env.dbFault .userSave = some e →
      ∃ d, (registerUser env ⟨.str s, bu, bm⟩ st).response =
        ⟨500, .error "Error al registrar usuario" d
          (if env.NODE_ENV = some "development" then some e.stack else none)⟩) := by
  constructor
  · intro e he
    rw [register_str]
    exact ⟨some e.message, by simp [hvalid, he, registerCatch]⟩
  · intro e hfind hnew he
    have hno : ¬ ∃ x ∈ st.users, x.name = jsTrim s := by
      rintro ⟨x, hx, hxn⟩
      exact hnew x hx hxn
    rw [register_str]
    exact ⟨some e.message, by simp [hvalid, hfind, hno, he, registerCatch]⟩

/-- C9 (amended): every error caught by a handler or by the error middleware is answered 500
with a fixed generic error message. The `details` field of the error middleware and the `stack`
field (only `registerUser` has one) are present exactly when `NODE_ENV` is `development`;
`loginUser` and `getConversationHistory` send neither `details` nor `stack` in any configuration;
an error returned by the provider call in `generateChatResponse` is answered with `details` set to
the message of the error in every configuration. Nothing is said of the `details` field of
`registerUser`, nor of that of `generateChatResponse` for other errors. -/
theorem error_detail_by_handler (env : Env) (body : ReqBody) (userId : String) (st : Store)
    (err : JsError) :
    (errorMiddleware env err =
        ⟨500, .error "Error interno del servidor"
          (if env.NODE_ENV = some "development" then some err.message else none) none⟩ ∧
      ∀ (method : Method) (path : List String),
        (app env ⟨method, path, .error err⟩ st).response = errorMiddleware env err) ∧
    ((∀ e, env.dbFault .userFindOne = some e →
        (loginUser env body st).response =
          ⟨500, .error "Error al recuperar la conversación" none none⟩) ∧
      (∀ e user, User.findOne env st body.name body.userId = .ok (some user) →
        env.dbFault .conversationFind = some e →
        (loginUser env body st).response =
          ⟨500, .error "Error al recuperar la conversación" none none⟩) ∧
      ((loginUser env body st).response.status = 500 →
        (loginUser env body st).response =
          ⟨500, .error "Error al recuperar la conversación" none none⟩)) ∧
    ((∀ e, env.dbFault .conversationFindOne = some e →
        (getConversationHistory env userId st).response =
          ⟨500, .error "Error obteniendo el historial" none none⟩) ∧
      ((getConversationHistory env userId st).response.status = 500 →
        (getConversationHistory env userId st).response =
          ⟨500, .error "Error obteniendo el historial" none none⟩)) ∧
    ((∀ s, body.name = .str s → jsTrim s ≠ "" →
        (∀ e, env.dbFault .userFindOne = some e →
          ∃ d, (registerUser env body st).response =
            ⟨500, .error "Error al registrar usuario" d
              (if env.NODE_ENV = some "development" then some e.stack else none)⟩) ∧
        (∀ e, env.dbFault .userFindOne = none → (∀ x ∈ st.users, x.name ≠ jsTrim s) →
          env.dbFault .userSave = some e →
          ∃ d, (registerUser env body st).response =
            ⟨500, .error "Error al registrar usuario" d
              (if env.NODE_ENV = some "development" then some e.stack else none)⟩)) ∧
      ((registerUser env body st).response.status = 500 →
        ∃ (d : Option String) (e : JsError), (registerUser env body st).response =
          ⟨500, .error "Error al registrar usuario" d
            (if env.NODE_ENV = some "development" then some e.stack else none)⟩)) ∧
    ((body.message.truthy = true → body.userId.truthy = true →
        (env.dbFault .conversationFindOne ≠ none ∨
          (∃ e, gatewayReply env
            (storedLog st body.userId ++ [⟨.user, body.message⟩]) = .error e) ∨
          env.dbFault .conversationSave ≠ none) →
        ∃ d, (generateChatResponse env body st).response =
          ⟨500, .error "Error al procesar la solicitud" d none⟩) ∧
      (∀ (client : Provider) (e : JsError),
        body.message.truthy = true → body.userId.truthy = true →
        env.dbFault .conversationFindOne = none → openai env = some client →
        client ⟨"gpt-3.5-turbo", storedLog st body.userId ++ [⟨.user, body.message⟩]⟩ =
          .error e →
        (generateChatResponse env body st).response =
          ⟨500, .error "Error al procesar la solicitud" (some e.message) none⟩) ∧
      ((generateChatResponse env body st).response.status = 500 →
        ∃ d, (generateChatResponse env body st).response =
          ⟨500, .error "Error al procesar la solicitud" d none⟩)) ∧
    (∀ resp ∈ [errorMiddleware env err, (registerUser env body st).response,
        (loginUser env body st).response, (generateChatResponse env body st).response,
        (getConversationHistory env userId st).response],
      resp.status = 500 → resp.body.stack.isSome = true → env.NODE_ENV = some "development") := by
  refine ⟨⟨rfl, fun method path => rfl⟩,
    ⟨(login_error_paths env body st).1, (login_error_paths env body st).2,
      login_500 env body st⟩,
    ⟨fun e he => history_error_path env userId st e he, history_500 env userId st⟩,
    ⟨?_, ?_⟩, ⟨chat_error_paths env body st, ?_, ?_⟩, ?_⟩
  · intro s hs hvalid
    obtain ⟨bn, bu, bm⟩ := body
    simp only at hs
    subst hs
    exact register_error_paths env s bu bm st hvalid
  · intro h500
    obtain ⟨e, he⟩ := register_500 env body st h500
    exact ⟨_, e, he⟩
  · intro client e hm hu hfind ho hc
    exact chat_provider_error env body st client e hm hu hfind ho hc
  · intro h500
    obtain ⟨e, he⟩ := chat_500 env body st h500
    exact ⟨_, he⟩
  · intro resp hmem h500 hstack
    simp only [List.mem_cons, List.mem_singleton, List.not_mem_nil, or_false] at hmem
    rcases hmem with h | h | h | h | h
    · rw [h] at hstack
      simp [errorMiddleware, Body.stack] at hstack
    · rw [h] at h500 hstack
      obtain ⟨e, he⟩ := register_500 env body st h500
      rw [he] at hstack
      by_contra hdev
      simp [Body.stack, hdev] at hstack
    · rw [h] at h500 hstack
      rw [login_500 env body st h500] at hstack
      simp [Body.stack] at hstack
    · rw [h] at h500 hstack
      obtain ⟨e, he⟩ := chat_500 env body st h500
      rw [he] at hstack
      simp [Body.stack] at hstack
    · rw [h] at h500 hstack
      rw [history_500 env userId st h500] at hstack
      simp [Body.stack] at hstack

/-- With the database unreachable in production, the errors caught by `loginUser` and
`getConversationHistory` are answered 500 without `details` or `stack`, the one caught by
`registerUser` is answered 500 without `stack`, and a malformed body reaches the error middleware,
which sends no `details`. -/
theorem error_detail_by_handler_witness :
    (loginUser faultyEnv ⟨.str "ana", .str "5-abcdef", .undefined⟩ exampleStore).response =
      ⟨500, .error "Error al recuperar la conversación" none none⟩ ∧
    (getConversationHistory faultyEnv "u1" exampleStore).response =
      ⟨500, .error "Error obteniendo el historial" none none⟩ ∧
    (∃ d, (registerUser faultyEnv ⟨.str "ana", .str "5-abcdef", .undefined⟩
        exampleStore).response = ⟨500, .error "Error al registrar usuario" d none⟩) ∧
    (app faultyEnv ⟨.POST, ["api", "chat"], .error ⟨"Unexpected token", "SyntaxError"⟩⟩
        exampleStore).response = ⟨500, .error "Error interno del servidor" none none⟩ :=
  ⟨(error_detail_by_handler faultyEnv ⟨.str "ana", .str "5-abcdef", .undefined⟩ "u1" exampleStore
      ⟨"Unexpected token", "SyntaxError"⟩).2.1.1 _ rfl,
    (error_detail_by_handler faultyEnv ⟨.str "ana", .str "5-abcdef", .undefined⟩ "u1" exampleStore
      ⟨"Unexpected token", "SyntaxError"⟩).2.2.1.1 _ rfl,
    ((error_detail_by_handler faultyEnv ⟨.str "ana", .str "5-abcdef", .undefined⟩ "u1"
      exampleStore ⟨"Unexpected token", "SyntaxError"⟩).2.2.2.1.1 "ana" rfl (by decide)).1 _ rfl,
    ((error_detail_by_handler faultyEnv ⟨.str "ana", .str "5-abcdef", .undefined⟩ "u1"
      exampleStore ⟨"Unexpected token", "SyntaxError"⟩).1.2 .POST ["api", "chat"]).trans
      (error_detail_by_handler faultyEnv ⟨.str "ana", .str "5-abcdef", .undefined⟩ "u1"
        exampleStore ⟨"Unexpected token", "SyntaxError"⟩).1.1⟩

/-- C10: the router has no route for the history endpoint. A `GET /api/chat/history/<userId>`
request matches no registration of the router (all three are `POST`), nor the banner or health
routes, and gets the default 404 of Express for every `userId` and every store, also when
`getConversationHistory` itself would answer 200 with the conversation; the three `POST` routes
are dispatched to their handlers. -/
theorem history_route_not_registered (env : Env) (u : String) (body : ReqBody) (st : Store) :
    app env ⟨.GET, ["api", "chat", "history", u], .ok body⟩ st =
      ⟨⟨404, .cannot "GET" ["api", "chat", "history", u]⟩, st, []⟩ ∧
    (∀ r ∈ router, r.method = .POST ∧ r.path ≠ ["history", u]) ∧
    (app exampleEnv ⟨.GET, ["api", "chat", "history", "u1"], .ok ⟨.undefined, .undefined, .undefined⟩⟩
        (generateChatResponse exampleEnv ⟨.undefined, .str "u1", .str "hello"⟩ ⟨[], []⟩).store
      ).response.status = 404 ∧
    (getConversationHistory exampleEnv "u1"
        (generateChatResponse exampleEnv ⟨.undefined, .str "u1", .str "hello"⟩ ⟨[], []⟩).store
      ).response = ⟨200, .history [⟨.user, .str "hello"⟩, ⟨.assistant, .str "hi"⟩]⟩ ∧
    app env ⟨.POST, ["api", "chat", "register"], .ok body⟩ st = registerUser env body st ∧
    app env ⟨.POST, ["api", "chat", "login"], .ok body⟩ st = loginUser env body st ∧
    app env ⟨.POST, ["api", "chat"], .ok body⟩ st = generateChatResponse env body st := by
  refine ⟨?_, ?_, by decide, by decide, ?_, ?_, ?_⟩
  · simp [app, stripMount, router, samePath, Method.name]
  · intro r hr
    simp only [router, List.mem_cons, List.mem_singleton, List.not_mem_nil, or_false] at hr
    rcases hr with h | h | h <;> subst h <;> simp
  · have h1 : stripMount ["api", "chat"] ["api", "chat", "register"] = some ["register"] := by
      decide
    have h2 : router.find? (fun r => decide (r.method = Method.POST) &&
        samePath r.path ["register"]) = some ⟨.POST, ["register"], .registerUser⟩ := by decide
    simp only [app, h1, h2, Handler.run]
  · have h1 : stripMount ["api", "chat"] ["api", "chat", "login"] = some ["login"] := by decide
    have h2 : router.find? (fun r => decide (r.method = Method.POST) &&
        samePath r.path ["login"]) = some ⟨.POST, ["login"], .loginUser⟩ := by decide
    simp only [app, h1, h2, Handler.run]
  · have h1 : stripMount ["api", "chat"] ["api", "chat"] = some [] := by decide
    have h2 : router.find? (fun r => decide (r.method = Method.POST) &&
        samePath r.path []) = some ⟨.POST, [], .generateChatResponse⟩ := by decide
    simp only [app, h1, h2, Handler.run]
/-! ## Instances of the theorems on concrete requests -/

/-- The provider rejects the request of `u1`: the answer is 500 and the stored conversation of
`u1` is the one before the call. -/
theorem gateway_failure_keeps_store_witness :
    gatewayReply productionEnv (storedLog exampleStore (.str "u1") ++ [⟨.user, .str "hello"⟩]) =
      .error ⟨"401 Incorrect API key provided", "Error: 401 at OpenAI.makeRequest"⟩ ∧
    (generateChatResponse productionEnv ⟨.undefined, .str "u1", .str "hello"⟩
      exampleStore).response.status = 500 ∧
    (generateChatResponse productionEnv ⟨.undefined, .str "u1", .str "hello"⟩
      exampleStore).store = exampleStore :=
  ⟨rfl,
    (gateway_failure_keeps_store productionEnv exampleStore .undefined "u1" "hello"
      ⟨"401 Incorrect API key provided", "Error: 401 at OpenAI.makeRequest"⟩
      (by decide) (by decide) rfl).1,
    (gateway_failure_keeps_store productionEnv exampleStore .undefined "u1" "hello"
      ⟨"401 Incorrect API key provided", "Error: 401 at OpenAI.makeRequest"⟩
      (by decide) (by decide) rfl).2.2.1⟩

/-- The request sent for `u1` carries the two stored messages and the new one. -/
theorem gateway_receives_full_history_witness :
    providerCalls (generateChatResponse exampleEnv ⟨.undefined, .str "u1", .str "hello"⟩
      exampleStore).trace =
      [⟨"gpt-3.5-turbo", storedLog exampleStore (.str "u1") ++ [⟨.user, .str "hello"⟩]⟩] :=
  (gateway_receives_full_history exampleEnv exampleStore .undefined "u1" "hello"
    (by decide) (by decide)).2 rfl rfl

/-- Without a key the exchange of `u1` is answered 500, nothing is sent and nothing stored. -/
theorem missing_credential_fails_exchange_witness :
    noKeyEnv.OPENAI_API_KEY = none ∧
    (generateChatResponse noKeyEnv ⟨.undefined, .str "u1", .str "hello"⟩
      exampleStore).response.status = 500 ∧
    providerCalls (generateChatResponse noKeyEnv ⟨.undefined, .str "u1", .str "hello"⟩
      exampleStore).trace = [] ∧
    (generateChatResponse noKeyEnv ⟨.undefined, .str "u1", .str "hello"⟩
      exampleStore).store = exampleStore :=
  ⟨rfl,
    (missing_credential_fails_exchange noKeyEnv ⟨.undefined, .str "u1", .str "hello"⟩
      exampleStore (Or.inl rfl) (by decide) (by decide)).2.1,
    (missing_credential_fails_exchange noKeyEnv ⟨.undefined, .str "u1", .str "hello"⟩
      exampleStore (Or.inl rfl) (by decide) (by decide)).2.2.2.1,
    (missing_credential_fails_exchange noKeyEnv ⟨.undefined, .str "u1", .str "hello"⟩
      exampleStore (Or.inl rfl) (by decide) (by decide)).2.2.2.2.1⟩

/-- The history of `u2` is not found in the example store; that of `u1` is its two messages. -/
theorem history_retrieval_witness :
    (getConversationHistory exampleEnv "u2" exampleStore).response =
      ⟨404, .error "Conversación no encontrada" none none⟩ ∧
    (getConversationHistory exampleEnv "u2"
      (generateChatResponse exampleEnv ⟨.undefined, .str "u2", .str "hello"⟩
        exampleStore).store).response =
      ⟨200, .history [⟨.user, .str "hello"⟩, ⟨.assistant, .str "hi"⟩]⟩ :=
  ⟨(history_retrieval exampleEnv "u2" exampleStore rfl).1 (by decide),
    (history_retrieval exampleEnv "u2" exampleStore rfl).2.2.2 exampleEnv .undefined "hello" "hi"
      (by decide) (by decide) rfl rfl (by decide) rfl⟩

end AsistenteBack
